import Mathlib

/-!
Verification of the Postty Product-Showcase agent core.

A shallow embedding of the conversation state machine and trigger-dispatch
protocol of `Agents/Product Showcase/agent.py` and the session store of
`Agents/Product Showcase/agent_direct.py`, together with theorems settling
the specification claims about them.

External effects (the text/image generation service, the backend HTTP
endpoints, the filesystem and the clock) are modelled as an `Oracle` record
of outcome-providing functions; everything the agent itself computes is
embedded directly.  Python strings are modelled as Lean `String`s, Python
dicts with a fixed key set as structures with `Option` fields (a missing or
empty — falsy — value is `none`).
-/

namespace Postty

/-! ## Python-style string primitives -/

/-- Drop the longest suffix satisfying `p` (helper for two-sided strips). -/
def dropTailWhile (p : Char → Bool) (l : List Char) : List Char :=
  (l.reverse.dropWhile p).reverse

/-- Strip characters satisfying `p` from both ends, like Python `str.strip`. -/
def stripBy (p : Char → Bool) (l : List Char) : List Char :=
  dropTailWhile p (l.dropWhile p)

/-- Python strip on the underlying character list. -/
def pyStripList (l : List Char) : List Char :=
  stripBy Char.isWhitespace l

/-- Python `str.strip()` (whitespace both ends). -/
def pyStrip (s : String) : String :=
  ⟨pyStripList s.data⟩

/-- Python `str.strip(c)` for a single character `c`. -/
def pyStripChar (c : Char) (s : String) : String :=
  ⟨stripBy (fun x => x = c) s.data⟩

/-- Python `str.startswith` (on whole strings). -/
def strStarts (s pre : String) : Bool :=
  pre.data.isPrefixOf s.data

/-- One step of substring search: does `needle` occur in `hay`
(the Python containment test of needle in hay)? -/
def listContainsSub (hay needle : List Char) : Bool :=
  match hay with
  | [] => needle.isEmpty
  | _ :: t => needle.isPrefixOf hay || listContainsSub t needle

/-- Python `needle in hay` on strings. -/
def containsStr (hay needle : String) : Bool :=
  listContainsSub hay.data needle.data

/-- Python `str.lower()` (basic-latin case folding). -/
def lowerStr (s : String) : String :=
  ⟨s.data.map Char.toLower⟩

/-- Worker for `pyReplace`: `pending` counts characters of a just-matched
occurrence of `old` still to be discarded. -/
def pyReplaceGo (old new : List Char) : Nat → List Char → List Char
  | _, [] => []
  | Nat.succ p, _ :: t => pyReplaceGo old new p t
  | 0, c :: t =>
    if !old.isEmpty && old.isPrefixOf (c :: t) then
      new ++ pyReplaceGo old new (old.length - 1) t
    else
      c :: pyReplaceGo old new 0 t

/-- Python `str.replace(old, new)`: every non-overlapping occurrence,
scanning left to right. -/
def pyReplace (old new s : List Char) : List Char :=
  pyReplaceGo old new 0 s

/-- Remove every occurrence of `needle` (the escaped-pattern regex substitution by the empty string). -/
def removeAllSub (needle : String) (s : String) : String :=
  ⟨pyReplace needle.data [] s.data⟩

/-- Split a character list at every occurrence of `c`
(Python `str.split(c)`: empty pieces kept). -/
def splitChar (c : Char) : List Char → List (List Char)
  | [] => [[]]
  | x :: t =>
    if x = c then [] :: splitChar c t
    else
      match splitChar c t with
      | h :: r => (x :: h) :: r
      | [] => [[x]]

/-- Python `str.splitlines()` restricted to `\n` line endings:
like `split('\n')` but with no trailing empty piece, and `[]` on `""`. -/
def pySplitlines (s : String) : List String :=
  if s.data = [] then []
  else
    let parts := (splitChar '\n' s.data).map (fun l => (⟨l⟩ : String))
    match parts.getLast? with
    | some last => if last = "" then parts.dropLast else parts
    | none => parts

/-- Worker for `wsTokens`: `acc` is the current token, reversed. -/
def wsTokensGo (acc : List Char) : List Char → List (List Char)
  | [] => if acc.isEmpty then [] else [acc.reverse]
  | c :: t =>
    if c.isWhitespace then
      if acc.isEmpty then wsTokensGo [] t
      else acc.reverse :: wsTokensGo [] t
    else wsTokensGo (c :: acc) t

/-- Python `str.split()` with no argument: the maximal non-whitespace runs. -/
def wsTokens (l : List Char) : List (List Char) :=
  wsTokensGo [] l

/-- Collapse whitespace runs to single spaces (join of split). -/
def collapseWs (s : String) : String :=
  String.intercalate " " ((wsTokens s.data).map (fun l => (⟨l⟩ : String)))

/-- Everything strictly before the first occurrence of `sep`
(`s.split(sep)[0]`; the whole string when `sep` is absent). -/
def beforeFirst (sep : String) : List Char → List Char
  | [] => []
  | c :: t =>
    if sep.data ≠ [] ∧ sep.data.isPrefixOf (c :: t) then []
    else c :: beforeFirst sep t

/-- Everything strictly after the first occurrence of `sep`
(`s.split(sep, 1)[1]`; `""` when `sep` is absent, a case the callers rule out). -/
def afterFirst (sep : String) : List Char → List Char
  | [] => []
  | c :: t =>
    if sep.data ≠ [] ∧ sep.data.isPrefixOf (c :: t) then (c :: t).drop sep.data.length
    else afterFirst sep t

/-- String version of beforeFirst. -/
def beforeFirstStr (sep s : String) : String := ⟨beforeFirst sep s.data⟩

/-- String version of afterFirst. -/
def afterFirstStr (sep s : String) : String := ⟨afterFirst sep s.data⟩

/-- Everything after the first `:` (Python `s.split(":", 1)[1]`;
only used on lines already known to contain a colon). -/
def afterColon (s : String) : String :=
  afterFirstStr ":" s

/-- Python `str.isdigit()` for ASCII content: non-empty and all digits. -/
def isDigitStr (s : String) : Bool :=
  !s.data.isEmpty && s.data.all Char.isDigit

/-- The numeric value of a digit string (`int(s)` for plain digit strings). -/
def natOfDigits (s : String) : Nat :=
  s.data.foldl (fun a c => a * 10 + (c.toNat - 48)) 0

/-- Python `int(s)` on an already-stripped decimal string: optional sign,
then one or more digits; `none` models `ValueError`. -/
def pyInt (s : String) : Option Int :=
  let core : List Char → Option Nat := fun ds =>
    if !ds.isEmpty && ds.all Char.isDigit then
      some (ds.foldl (fun a c => a * 10 + (c.toNat - 48)) 0)
    else none
  match pyStripList s.data with
  | '+' :: ds => (core ds).map Int.ofNat
  | '-' :: ds => (core ds).map (fun n => -(Int.ofNat n))
  | ds => (core ds).map Int.ofNat

/-- First `some` in a list of options (regex alternation order). -/
def firstSome {α : Type} : List (Option α) → Option α
  | [] => none
  | some a :: _ => some a
  | none :: t => firstSome t

/-! ## `_extract_image_url` (agent.py lines 52–86)

The URL pattern is `https?://[^\s]+`; the file pattern is
`(?:\.{0,2}/)?(?:[\w\-~/]+/)*[\w\-]+\.(?:jpg|jpeg|png|gif|webp|bmp)` with
`re.IGNORECASE`.  `re.findall(...)[0]` is the leftmost match, modelled by
scanning each start position left to right and attempting a greedy match. -/

/-- Attempt `https?://[^\s]+` at the head of `l`; returns the matched text. -/
def urlMatchAt (l : List Char) : Option (List Char) :=
  let go : List Char → Nat → Option (List Char) := fun scheme n =>
    if scheme.isPrefixOf l then
      let tail := (l.drop n).takeWhile (fun c => ¬ c.isWhitespace)
      if tail.isEmpty then none else some (scheme ++ tail)
    else none
  firstSome [go "https://".data 8, go "http://".data 7]

/-- Leftmost match of the URL pattern in `l`. -/
def urlFindFirst : List Char → Option (List Char)
  | [] => none
  | c :: t =>
    match urlMatchAt (c :: t) with
    | some m => some m
    | none => urlFindFirst t

/-- Character class of the regex name segment (ASCII reading of word chars plus dash). -/
def nameChar (c : Char) : Bool := c.isAlphanum || c = '_' || c = '-'

/-- Character class of the regex middle segments (name chars plus tilde and slash). -/
def midChar (c : Char) : Bool := nameChar c || c = '~' || c = '/'

/-- Case-insensitive alternation `(?:jpg|jpeg|png|gif|webp|bmp)` at the head
of `l`, tried in the order of the regex alternation; returns the matched (original) text. -/
def extMatch (l : List Char) : Option (List Char) :=
  let tryOne : String → Option (List Char) := fun e =>
    let k := e.data.length
    if (l.take k).map Char.toLower = e.data then some (l.take k) else none
  firstSome [tryOne "jpg", tryOne "jpeg", tryOne "png", tryOne "gif",
             tryOne "webp", tryOne "bmp"]

/-- Match of name-plus-dot-plus-extension at the head of `r` (the name run is maximal; a dot is not a
name character, so greediness needs no backtracking here). -/
def fileNameExtAt (r : List Char) : Option (List Char) :=
  let name := r.takeWhile nameChar
  if name.isEmpty then none
  else
    match r.drop name.length with
    | c :: r3 =>
      if c = '.' then (extMatch r3).map (fun e => name ++ '.' :: e) else none
    | [] => none

/-- Body of the file pattern at the head of `l`.  The starred group can
consume exactly the prefixes of the maximal `midChar` run that end in `/` and
have length ≥ 2 (each block is one-or-more characters plus a slash); the
greedy engine tries the longest such prefix first and zero iterations last. -/
def fileBody (l : List Char) : Option (List Char) :=
  let run := l.takeWhile midChar
  let cands := ((List.range (run.length + 1)).filter
    (fun k => k = 0 ∨ (2 ≤ k ∧ run.get? (k - 1) = some '/'))).reverse
  firstSome (cands.map (fun k =>
    (fileNameExtAt (l.drop k)).map (fun m => l.take k ++ m)))

/-- The whole file pattern at the head of `l`: greedy optional prefix
`\.{0,2}/` (two dots, one dot, zero dots, absent — in that order), then the
body. -/
def fileMatchAt (l : List Char) : Option (List Char) :=
  let withPre : String → Option (List Char) := fun p =>
    if p.data.isPrefixOf l then
      (fileBody (l.drop p.data.length)).map (fun m => p.data ++ m)
    else none
  firstSome [withPre "../", withPre "./", withPre "/", fileBody l]

/-- Leftmost match of the file pattern in `l`. -/
def fileFindFirst : List Char → Option (List Char)
  | [] => none
  | c :: t =>
    match fileMatchAt (c :: t) with
    | some m => some m
    | none => fileFindFirst t

/-- The function returning the pair of clean text and image source.  A URL is
looked for first; only when no URL matches is the file pattern consulted.
The matched substring is removed everywhere, the remainder stripped and its
whitespace collapsed; with no match the message is returned untouched. -/
def extract_image_url (message : String) : String × Option String :=
  match urlFindFirst message.data with
  | some u =>
    let src : String := ⟨u⟩
    (collapseWs (pyStrip (removeAllSub src message)), some src)
  | none =>
    match fileFindFirst message.data with
    | some f =>
      let src : String := ⟨f⟩
      (collapseWs (pyStrip (removeAllSub src message)), some src)
    | none => (message, none)

/-! ## `_parse_text_content` (agent.py lines 582–626) -/

/-- Structured overlay text: the `text_content` dict with keys
`headline` / `subheadline` / `cta` (a key absent from the dict is `none`). -/
structure TextContent where
  headline : Option String := none
  subheadline : Option String := none
  cta : Option String := none
deriving Repr, DecidableEq

/-- Size of the dict: how many keys it holds. -/
def tcSize (tc : TextContent) : Nat :=
  (if tc.headline.isSome then 1 else 0) +
  (if tc.subheadline.isSome then 1 else 0) +
  (if tc.cta.isSome then 1 else 0)

/-- The CTA keyword list of `_parse_text_content`. -/
def ctaKeywords : List String :=
  ["comprá", "compra", "buy", "shop", "link en bio", "link in bio",
   "visita", "visit", "descubrí", "descubre"]

/-- Does the lower-cased piece contain any CTA keyword? -/
def ctaKeywordHit (piece : String) : Bool :=
  ctaKeywords.any (fun kw => containsStr (lowerStr piece) kw)

/-- The candidate fragments: split on the spaced conjunction (lower or upper case) and newlines, strip
whitespace, double quotes, single quotes, commas, whitespace again, and keep
only fragments longer than one character. -/
def textPieces (user_message : String) : List String :=
  let replaced := pyReplace " Y ".data "\n".data
    (pyReplace " y ".data "\n".data user_message.data)
  let lines := splitChar '\n' replaced
  lines.filterMap (fun l =>
    let s := pyStrip (pyStripChar ',' (pyStripChar (Char.ofNat 39)
      (pyStripChar '"' (pyStrip ⟨l⟩))))
    if s.data.length > 1 then some s else none)

/-- The text-spec parser: assign fragments to roles by count
exactly as the Python `if/elif` ladder does. -/
def parse_text_content (user_message : String) : TextContent :=
  let text_pieces := textPieces user_message
  if text_pieces.length ≥ 3 then
    { headline := text_pieces.get? 0,
      subheadline := text_pieces.get? 1,
      cta := text_pieces.get? 2 }
  else if text_pieces.length = 2 then
    match text_pieces.get? 1 with
    | some second =>
      if ctaKeywordHit second then
        { headline := text_pieces.get? 0, cta := some second }
      else
        { headline := text_pieces.get? 0, subheadline := some second }
    | none => { headline := text_pieces.get? 0 }
  else if text_pieces.length = 1 then
    { headline := text_pieces.get? 0 }
  else
    { headline := some (pyStrip user_message) }

/-! ## Session store (agent_direct.py lines 17–47)

The two module-level dicts `agents` and `session_last_used` are modelled as
a list of live session ids and an association list of last-used timestamps
(dict insertion order: an update keeps its position, a new key appends).
`time.time()` is an `Int` parameter. -/

/-- Maximum number of live sessions before eviction runs. -/
def MAX_AGENTS : Nat := 100

/-- Session idle timeout (one hour, in seconds). -/
def SESSION_TIMEOUT : Int := 3600

/-- The per-process session registry. -/
structure Store where
  agents : List String
  session_last_used : List (String × Int)
deriving Repr, DecidableEq

/-- First-match association lookup (Python dict read). -/
def lookupLast (sid : String) : List (String × Int) → Option Int
  | [] => none
  | p :: t => if p.1 = sid then some p.2 else lookupLast sid t

/-- Python dict write: update the existing entry in place, else append. -/
def setLast (sid : String) (now : Int) : List (String × Int) → List (String × Int)
  | [] => [(sid, now)]
  | p :: t => if p.1 = sid then (sid, now) :: t else p :: setLast sid now t

/-- Eviction pass run at wall time `now`: collect every session id
whose last-used time is strictly more than `SESSION_TIMEOUT` old and pop it
from both dicts. -/
def cleanup_old_sessions (now : Int) (s : Store) : Store :=
  let sessions_to_remove :=
    (s.session_last_used.filter (fun p => now - p.2 > SESSION_TIMEOUT)).map Prod.fst
  { agents := s.agents.filter (fun sid => !(sessions_to_remove.contains sid)),
    session_last_used :=
      s.session_last_used.filter (fun p => !(sessions_to_remove.contains p.1)) }

/-- Session fetch-or-create at wall time `now`: evict first
when at capacity, create the agent if the key is new, and stamp
`session_last_used[session_id] = time.time()` unconditionally. -/
def get_or_create_agent (session_id : String) (now : Int) (s : Store) : Store :=
  let s := if s.agents.length ≥ MAX_AGENTS then cleanup_old_sessions now s else s
  let s :=
    if s.agents.contains session_id then s
    else { s with agents := s.agents ++ [session_id] }
  { s with session_last_used := setLast session_id now s.session_last_used }

/-! ## Agent data model (agent.py)

Design-guideline dicts come from the SQLite column of the backend; the agent only
reads the keys below, each with Python truthiness (`none` stands for an
absent, empty — falsy — entry). -/

/-- One typography sub-dict (`headline` / `subheadline` / `badges`). -/
structure TypoField where
  text_purpose : Option String := none
  present : Bool := false
  content : Option String := none
deriving Repr, DecidableEq

/-- The `typography` dict of a design-guidelines record. -/
structure Typography where
  headline : Option TypoField := none
  subheadline : Option TypoField := none
  badges : Option TypoField := none
deriving Repr, DecidableEq

/-- The `cta_button` dict. -/
structure CtaButton where
  present : Bool := false
deriving Repr, DecidableEq

/-- The design-guidelines record of a reference. -/
structure DesignGuidelines where
  typography : Option Typography := none
  cta_button : Option CtaButton := none
deriving Repr, DecidableEq

/-- Backend `tags` values arrive either as a comma-joined string or a list. -/
inductive TagsVal where
  | ofString (s : String)
  | ofList (l : List String)
deriving Repr, DecidableEq

/-- A reference record returned by `/search-references`. -/
structure Reference where
  filename : Option String := none
  tags : TagsVal := .ofList []
  industry : Option String := none
  aesthetic : Option String := none
  mood : Option String := none
  description : Option String := none
  design_guidelines : Option DesignGuidelines := none
deriving Repr, DecidableEq

/-- The product-analysis JSON produced by `_analyze_product_for_text_context`
(pass-through data: the agent never inspects it, only forwards it). -/
structure ProductAnalysis where
  colors : List String := []
  category : String := "neutral"
  composition : String := "center"
deriving Repr, DecidableEq

/-- One history entry.  `references` is the optional attached reference list
(`[]` models the key being absent or empty — both falsy); `is_reset` is the
reset-marker flag. -/
structure Turn where
  role : String
  content : String
  image_url : Option String := none
  is_reset : Bool := false
  references : List Reference := []
deriving Repr, DecidableEq

/-- The mutable per-session fields of `NanoBananaAgent`, plus the
`user_id` attribute set by the transport wrapper and the configured system
instructions (used when building the model prompt). -/
structure AgentState where
  history : List Turn := []
  selected_reference : Option Reference := none
  product_image_path : Option String := none
  text_content : Option TextContent := none
  awaiting_text_input : Bool := false
  design_guidelines : Option DesignGuidelines := none
  product_analysis : Option ProductAnalysis := none
  user_id : Option String := none
  system_instructions : String := ""
deriving Repr, DecidableEq

/-- The discriminated result dict returned by `chat` and the handlers:
`type` is `"text"`, `"image"` or `"reference_options"`; the other keys are
present only on the paths that set them. -/
structure ChatResult where
  type : String
  text : String
  file : Option String := none
  references : Option (List Reference) := none
  postId : Option String := none
deriving Repr, DecidableEq

/-- Response of `POST /search-references`. -/
structure SearchResponse where
  status : String := ""
  results : List Reference := []
deriving Repr, DecidableEq

/-- Response of `POST /pipeline`. -/
structure PipelineResponse where
  success : Bool := false
  finalImagePath : Option String := none
deriving Repr, DecidableEq

/-- JSON payload of `POST /video/generate` (or the fallback payload built
from a non-JSON body). -/
structure ReelPayload where
  status : String := ""
  message : Option String := none
  postId : Option String := none
deriving Repr, DecidableEq

/-- The multipart form sent to `/pipeline`.  `userText` is the ordered text
array; `typographyStyle` and `productAnalysis` carry the JSON-serialised
auxiliary data. -/
structure PipelineData where
  textPrompt : String
  referenceImage : String
  skipText : String
  language : String
  aspectRatio : String
  userText : Option (List String) := none
  typographyStyle : Option Typography := none
  productAnalysis : Option ProductAnalysis := none
deriving Repr, DecidableEq

/-- The multipart form sent to `/video/generate`. -/
structure ReelRequest where
  prompt : String
  caption : String
  userId : String
  productImage : Option String := none
deriving Repr, DecidableEq

/-- Outcomes of every external effect, keyed by the request the agent
builds.  An `Except.error` covers any exception raised inside the
corresponding `try` block (connection errors, non-2xx statuses raised by
`raise_for_status`, file-open failures). -/
structure Oracle where
  /-- Text-model call on the composed prompt. -/
  genText : String → String
  /-- Net outcome of the guarded `_analyze_product_for_text_context` call. -/
  analysisResult : Option ProductAnalysis := none
  /-- Backend search call with the given query and limit. -/
  searchBackend : String → Int → Except String SearchResponse :=
    fun _ _ => .error "unavailable"
  /-- Backend pipeline call with the given form. -/
  pipelineBackend : PipelineData → Except String PipelineResponse :=
    fun _ => .error "unavailable"
  /-- Backend video call: HTTP status code and decoded payload. -/
  reelBackend : ReelRequest → Except String (Nat × ReelPayload) :=
    fun _ => .error "unavailable"
  /-- Image-model call of the legacy handler: `some bytes` or no image part. -/
  genImage : String → Option String := fun _ => none
  /-- Clock-derived timestamp file name. -/
  timestamp : String := "19700101_000000.png"
  /-- Filesystem existence check (after home-dir expansion). -/
  fileExists : String → Bool := fun _ => false

/-! ## Trigger-block parameter parsing -/

/-- A plain assistant history entry. -/
def assistantTurn (content : String) : Turn :=
  { role := "assistant", content := content }

/-- Value part of a stripped key-value
line whose key (with colon) is `n` characters long. -/
def lineVal (n : Nat) (line : String) : String :=
  pyStrip ((pyStrip line).drop n)

/-- One line of the parameter scan of the search handler
(agent.py lines 794–802): each `QUERY:`/`LIMIT:` line overwrites the
accumulator, a failed `int()` resets the limit to 3. -/
def searchParamStep (acc : String × Int) (line : String) : String × Int :=
  let ls := pyStrip line
  if strStarts ls "QUERY:" then (lineVal 6 line, acc.2)
  else if strStarts ls "LIMIT:" then (acc.1, (pyInt (lineVal 6 line)).getD 3)
  else acc

/-- Extraction of QUERY and LIMIT by the search handler. -/
def searchParams (response_text : String) : String × Int :=
  (pySplitlines response_text).foldl searchParamStep ("", 3)

/-- Accumulator of the parameter scan of the pipeline handler. -/
structure PipelineParams where
  reference_image : String
  prompt : String
  skip_text : String
deriving Repr, DecidableEq

/-- One line of the pipeline-handler scan (agent.py lines 898–908):
`REFERENCE_IMAGE:` only fills an as-yet-empty reference, `PROMPT:` and
`SKIP_TEXT:` overwrite. -/
def pipelineParamStep (acc : PipelineParams) (line : String) : PipelineParams :=
  let ls := pyStrip line
  if strStarts ls "REFERENCE_IMAGE:" ∧ acc.reference_image = "" then
    { acc with reference_image := lineVal 16 line }
  else if strStarts ls "PROMPT:" then { acc with prompt := lineVal 7 line }
  else if strStarts ls "SKIP_TEXT:" then { acc with skip_text := lineVal 10 line }
  else acc

/-- Parameter extraction of `_handle_generate_pipeline`; `refInit` is the
filename of an already-selected reference (`""` when none). -/
def pipelineParams (refInit : String) (response_text : String) : PipelineParams :=
  (pySplitlines response_text).foldl pipelineParamStep
    { reference_image := refInit, prompt := "", skip_text := "true" }

/-- Accumulator of the parameter scan of the reel handler. -/
structure ReelParams where
  product_image : Option String := none
  prompt : Option String := none
  caption : Option String := none
deriving Repr, DecidableEq

/-- One (already stripped, non-empty) line of the reel-handler scan
(agent.py lines 647–654); an empty `PRODUCT_IMAGE:` value becomes `None`. -/
def reelParamStep (acc : ReelParams) (ln : String) : ReelParams :=
  if strStarts ln "PRODUCT_IMAGE:" then
    let v := pyStrip (afterColon ln)
    { acc with product_image := if v = "" then none else some v }
  else if strStarts ln "PROMPT:" then { acc with prompt := some (pyStrip (afterColon ln)) }
  else if strStarts ln "CAPTION:" then { acc with caption := some (pyStrip (afterColon ln)) }
  else acc

/-- The stripped, non-empty lines of the block following the reel trigger. -/
def reelLines (block : String) : List String :=
  (pySplitlines block).filterMap (fun ln =>
    let s := pyStrip ln
    if s = "" then none else some s)

/-- The legacy-handler prompt scan (agent.py lines 536–544): the first
`IMAGE_PROMPT:` or `PROMPT:` line wins (the loop `break`s). -/
def legacyPromptLines : List String → String
  | [] => ""
  | ln :: rest =>
    let s := pyStrip ln
    if strStarts s "IMAGE_PROMPT:" then pyStrip (s.drop 13)
    else if strStarts s "PROMPT:" then pyStrip (s.drop 7)
    else legacyPromptLines rest

/-! ## Search-references handler (agent.py lines 786–881) -/

/-- Tag display: normalise comma-joined strings to lists, take five, or fall
back to the aesthetic. -/
def refTagsStr (ref : Reference) : String :=
  let tags := match ref.tags with
    | .ofString s => ((s.splitOn ",").map pyStrip).filter (fun t => t ≠ "")
    | .ofList l => l
  if tags.isEmpty then ref.aesthetic.getD "Sin estilo"
  else String.intercalate ", " (tags.take 5)

/-- Display description built from industry/aesthetic/mood (truthy fields
only), with the filename as fallback. -/
def refDescription (ref : Reference) : String :=
  let parts := ([ref.industry, ref.aesthetic, ref.mood].filterMap id).filter
    (fun x => x ≠ "")
  if parts.isEmpty then ref.filename.getD "Referencia"
  else String.intercalate " - " parts

/-- One enumerated line of the reference list. -/
def refLine (i : Nat) (ref : Reference) : String :=
  toString i ++ ". " ++ refDescription ref ++ "\n   Estilo: " ++ refTagsStr ref

/-- The search-references handler. -/
def handle_search_references (st : AgentState) (response_text : String)
    (o : Oracle) : AgentState × ChatResult :=
  let qp := searchParams response_text
  let query := if qp.1 = "" then "product photography professional" else qp.1
  match o.searchBackend query qp.2 with
  | .error _ =>
    let fallback := "Tuve un problema buscando referencias. ¿Seguimos sin referencias visuales?"
    ({ st with history := st.history ++ [assistantTurn fallback] },
     { type := "text", text := fallback })
  | .ok result =>
    if result.status = "success" ∧ result.results ≠ [] then
      let references := result.results
      let tbt0 := pyStrip (beforeFirstStr "[TRIGGER_SEARCH_REFERENCES]" response_text)
      let text_before_trigger :=
        if tbt0 = "" then "Encontré estas referencias que podrían inspirar tu imagen:"
        else tbt0
      let message_parts := [text_before_trigger, ""] ++
        (references.enum.map (fun p => refLine (p.1 + 1) p.2)) ++
        ["", "¿Cuál te gusta más? (1, 2, 3, o \x27ninguna\x27 si querés que genere sin referencia)"]
      let full_message := String.intercalate "\n" message_parts
      ({ st with history := st.history ++
          [{ role := "assistant", content := full_message, references := references }] },
       { type := "reference_options", text := full_message, references := some references })
    else
      let fallback := "No encontré referencias exactas. ¿Querés que genere la imagen según tu descripción?"
      ({ st with history := st.history ++ [assistantTurn fallback] },
       { type := "text", text := fallback })

/-! ## Pipeline handler (agent.py lines 883–1032) -/

/-- Is a non-empty text-content dict stored on the session? -/
def hasTextContent (st : AgentState) : Bool :=
  match st.text_content with
  | some tc => tcSize tc > 0
  | none => false

/-- The ordered text array (headline, subheadline, cta; only truthy values
are appended). -/
def textArrayOf (tc : TextContent) : List String :=
  (match tc.headline with | some h => if h ≠ "" then [h] else [] | none => []) ++
  (match tc.subheadline with | some h => if h ≠ "" then [h] else [] | none => []) ++
  (match tc.cta with | some h => if h ≠ "" then [h] else [] | none => [])

/-- The `/pipeline` form as built at agent.py lines 931–969: `skipText`
starts as the false string and is overwritten to the true string exactly when the session has
no stored text content; the parsed `SKIP_TEXT` trigger field is not an
input of this construction. -/
def buildPipelineData (st : AgentState) (prompt reference_image : String) :
    PipelineData :=
  let base : PipelineData :=
    { textPrompt := prompt,
      referenceImage := reference_image,
      skipText := "false",
      language := "es",
      aspectRatio := "1:1" }
  if hasTextContent st then
    match st.text_content with
    | some tc =>
      { base with
        userText := some (textArrayOf tc),
        typographyStyle := st.design_guidelines.bind (fun dg => dg.typography),
        productAnalysis := st.product_analysis }
    | none => base
  else { base with skipText := "true" }

/-- The form `_handle_generate_pipeline` submits for a given model output:
reference seeded from the stored selection, prompt defaulted when empty. -/
def pipelineDataOf (st : AgentState) (response_text : String) : PipelineData :=
  let refInit := match st.selected_reference with
    | some r => r.filename.getD ""
    | none => ""
  let params := pipelineParams refInit response_text
  let prompt :=
    if params.prompt = "" then "Professional product photography with elegant composition"
    else params.prompt
  buildPipelineData st prompt params.reference_image

/-- The pipeline-generation handler. -/
def handle_generate_pipeline (st : AgentState) (response_text : String)
    (o : Oracle) : AgentState × ChatResult :=
  match st.product_image_path with
  | none =>
    let error_msg := "No product image available for generation"
    ({ st with history := st.history ++ [assistantTurn error_msg] },
     { type := "text", text := error_msg })
  | some _ =>
    match o.pipelineBackend (pipelineDataOf st response_text) with
    | .error _ =>
      let fallback := "Tuve un problema generando la imagen. ¿Intentamos de nuevo?"
      ({ st with history := st.history ++ [assistantTurn fallback] },
       { type := "text", text := fallback })
    | .ok result =>
      if result.success = false ∨ result.finalImagePath.getD "" = "" then
        let error_msg := "La generación de imagen falló. ¿Intentamos de nuevo?"
        ({ st with history := st.history ++ [assistantTurn error_msg] },
         { type := "text", text := error_msg })
      else
        let final_image_path := result.finalImagePath.getD ""
        let tbt0 := pyStrip (beforeFirstStr "[TRIGGER_GENERATE_PIPELINE]" response_text)
        let text_before_trigger :=
          if tbt0 = "" then "✨ ¡Listo! Acá está tu imagen" else tbt0
        let assistant_msg := text_before_trigger ++ "\n[Image generated via pipeline]"
        ({ st with history := st.history ++ [assistantTurn assistant_msg] },
         { type := "image", file := some final_image_path, text := text_before_trigger })

/-! ## Reel handler (agent.py lines 628–715)

This handler mutates no session state and, in particular, never touches the
conversation history. -/

/-- The reel-generation handler. -/
def handle_generate_reel (st : AgentState) (response_text : String)
    (o : Oracle) : AgentState × ChatResult :=
  let block := afterFirstStr "[TRIGGER_GENERATE_REEL]" response_text
  let p := (reelLines block).foldl reelParamStep {}
  match p.prompt with
  | none => (st, { type := "text", text := "Faltó el PROMPT para generar el reel." })
  | some pr =>
    if pr = "" then
      (st, { type := "text", text := "Faltó el PROMPT para generar el reel." })
    else
      let user_id := match st.user_id with
        | some u => if u = "" then "unknown" else u
        | none => "unknown"
      let image_path := match p.product_image with
        | some v => some v
        | none => st.product_image_path
      let attached := match image_path with
        | some ip => if ip ≠ "" ∧ o.fileExists ip then some ip else none
        | none => none
      let req : ReelRequest :=
        { prompt := pr, caption := p.caption.getD "", userId := user_id,
          productImage := attached }
      match o.reelBackend req with
      | .error e => (st, { type := "text", text := "Error iniciando el reel: " ++ e })
      | .ok cp =>
        if cp.1 ≥ 400 ∨ cp.2.status ≠ "accepted" then
          let msg := match cp.2.message with
            | some m => if m = "" then "HTTP " ++ toString cp.1 else m
            | none => "HTTP " ++ toString cp.1
          (st, { type := "text", text := "Hubo un error al iniciar el reel: " ++ msg })
        else
          (st, { type := "text",
                 text := "Listo. Estoy generando tu reel ahora. Te avisamos cuando esté listo para subir en **Mis posts**.",
                 postId := cp.2.postId })

/-! ## Legacy direct image generation (inline in `chat`, agent.py
lines 534–576) -/

/-- The legacy handler, factored out of the body of `chat`. -/
def handle_legacy_image (st : AgentState)
    (user_message response_text response_text_stripped : String)
    (o : Oracle) : AgentState × ChatResult :=
  let image_prompt0 := legacyPromptLines (pySplitlines response_text)
  let image_prompt :=
    if image_prompt0 = "" then "Professional product photography: " ++ user_message
    else image_prompt0
  match o.genImage image_prompt with
  | none =>
    let assistant_msg := "Image generation failed: no image bytes returned."
    ({ st with history := st.history ++ [assistantTurn assistant_msg] },
     { type := "text", text := assistant_msg })
  | some _ =>
    let timestamp := o.timestamp
    let tbt0 := pyStrip (beforeFirstStr "[TRIGGER_GENERATE_NANOBANANA]" response_text_stripped)
    let text_before_trigger :=
      if tbt0 = "" then "✨ Generated image saved to " ++ timestamp else tbt0
    let assistant_msg := text_before_trigger ++ "\n[Image generated: " ++ timestamp ++ "]"
    ({ st with history := st.history ++ [assistantTurn assistant_msg] },
     { type := "image", file := some timestamp, text := text_before_trigger })

/-! ## Reference selection and the dynamic text question
(agent.py lines 369–474) -/

/-- The backward history walk of the bare-integer selection path: stop at a
reset marker, skip turns without an attached reference list, skip lists
shorter than the requested index, bind the first long enough. -/
def findSelection (selected_num : Nat) : List Turn → Option Reference
  | [] => none
  | t :: rest =>
    if t.is_reset then none
    else if t.references.isEmpty then findSelection selected_num rest
    else
      match t.references.get? (selected_num - 1) with
      | some r => some r
      | none => findSelection selected_num rest

/-- The whole bare-integer selection guard of `chat` (agent.py lines
369–381): the stripped message must be all digits with value 1–3, and the
backward walk must find a long-enough reference list. -/
def selectionOf (hist : List Turn) (um : String) : Option Reference :=
  if isDigitStr (pyStrip um) then
    if 1 ≤ natOfDigits (pyStrip um) ∧ natOfDigits (pyStrip um) ≤ 3 then
      findSelection (natOfDigits (pyStrip um)) hist.reverse
    else none
  else none

/-- The localized bullet for the `headline` typography hint. -/
def headlineElement (h : TypoField) : String :=
  let purpose := h.text_purpose.getD "frase destacada"
  if purpose = "product name" then "- **Nombre del producto** (título principal)"
  else if purpose = "benefit" then
    "- **Beneficio principal** (ej: \x27Hidratación profunda\x27, \x27Rendimiento mejorado\x27)"
  else if purpose = "offer" then "- **Oferta destacada** (ej: \x2750% OFF\x27, \x273x2\x27)"
  else if purpose = "question" then
    "- **Pregunta destacada** (ej: \x27¿Listo para el cambio?\x27)"
  else "- **Título principal o frase destacada**"

/-- The localized bullet for the `subheadline` typography hint. -/
def subheadlineElement (s : TypoField) : String :=
  let purpose := s.text_purpose.getD "descripción"
  if purpose = "benefits" then "- **Beneficios adicionales** (características del producto)"
  else if purpose = "features" then "- **Características** (detalles técnicos o ingredientes)"
  else if purpose = "tagline" then "- **Tagline o frase secundaria**"
  else if purpose = "ingredients" then "- **Ingredientes o componentes principales**"
  else "- **Texto secundario o subtítulo**"

/-- The localized bullet for the `badges` typography hint. -/
def badgesElement (b : TypoField) : String :=
  let content := b.content.getD ""
  if containsStr content "discount" ∨ containsStr content "price" then
    "- **Descuento o precio especial** (ej: \x2730% OFF\x27, \x27$999\x27)"
  else if containsStr content "certification" then
    "- **Certificación o badge** (ej: \x27Orgánico\x27, \x27Vegan\x27, \x27Cruelty-free\x27)"
  else if containsStr content "size" then
    "- **Tamaño o cantidad** (ej: \x27500ml\x27, \x27Pack x3\x27)"
  else "- **Badge o etiqueta destacada**"

/-- The `text_elements` bullet list built from the stored design guidelines
(a missing/empty guidelines dict contributes nothing). -/
def typoElements (dgOpt : Option DesignGuidelines) : List String :=
  match dgOpt with
  | none => []
  | some dg =>
    let typHeadline := dg.typography.bind (fun t => t.headline)
    let typSubheadline := dg.typography.bind (fun t => t.subheadline)
    let typBadges := dg.typography.bind (fun t => t.badges)
    (match typHeadline with
     | some h => [headlineElement h]
     | none => []) ++
    (match typSubheadline with
     | some s => if s.present then [subheadlineElement s] else []
     | none => []) ++
    (match typBadges with
     | some b => if b.present then [badgesElement b] else []
     | none => []) ++
    (match dg.cta_button with
     | some c => if c.present then
         ["- **Llamado a acción** (ej: \x27Comprá ahora\x27, \x27Ver más\x27, \x27Link en bio\x27)"]
       else []
     | none => [])

/-- The dynamically built text-requirements question, with the generic
three-bullet fallback when no typography hints are available. -/
def buildTextQuestion (elements : List String) : String :=
  if elements ≠ [] then
    "Perfecto! Basándome en la referencia que elegiste, necesito:\n\n" ++
    String.intercalate "\n" elements ++
    "\n\nO decime **\x27sin texto\x27** si preferís la imagen sola."
  else
    "Perfecto! Ahora, ¿qué texto querés que tenga tu post de Instagram?\n\n" ++
    "Podés incluir:\n" ++
    "- Título principal o frase destacada\n" ++
    "- Oferta o beneficio (ej: \x273x2\x27, \x27Envío gratis\x27)\n" ++
    "- Llamado a acción (ej: \x27Comprá ahora\x27, \x27Link en bio\x27)\n\n" ++
    "O decime **\x27sin texto\x27** si preferís la imagen sola."

/-! ## The `chat` entry point (agent.py lines 237–580) -/

/-- Start-over keyword list (agent.py lines 269–274). -/
def startOverKeywords : List String :=
  ["otro producto", "nueva imagen", "nuevo producto", "empezar de nuevo",
   "start over", "different product", "another product", "new product",
   "quiero crear otra", "vamos a crear una nueva", "crear algo con otro",
   "imagen de producto nueva", "producto nueva"]

/-- Does the lower-cased message contain any start-over keyword? -/
def startOverHit (user_message : String) : Bool :=
  startOverKeywords.any (fun kw => containsStr (lowerStr user_message) kw)

/-- No-text keyword list (agent.py line 482). -/
def noTextKeywords : List String :=
  ["sin texto", "no texto", "sin text", "no text", "imagen sola",
   "ninguno", "nada", "skip"]

/-- Does the lower-cased, stripped message contain any no-text keyword? -/
def noTextHit (user_message : String) : Bool :=
  noTextKeywords.any (fun kw => containsStr (pyStrip (lowerStr user_message)) kw)

/-- The fixed greeting returned by the explicit reset command. -/
def initialGreeting : String :=
  "¡Hola! Soy tu especialista en fotografía de producto para Instagram. Para empezar, **subí la foto de tu producto** usando el botón (+) y te voy a ayudar a crear contenido profesional que destaque tu producto. 📸"

/-- The start-over acknowledgement message. -/
def startOverMsg : String :=
  "¡Claro que sí! Entendido, vamos a empezar de nuevo. **Subí la foto del nuevo producto** y te ayudo a crear algo increíble. 📸"

/-- The reset-marker turn appended after a start-over keyword. -/
def resetMarkerTurn : Turn :=
  { role := "assistant", content := startOverMsg, is_reset := true }

/-- Clearing of the six per-task session fields on either reset path. -/
def clearedOnReset (st : AgentState) : AgentState :=
  { st with selected_reference := none, product_image_path := none,
            text_content := none, awaiting_text_input := false,
            design_guidelines := none, product_analysis := none }

/-- The user turn recorded for a message: extracted image source attached,
cleaned text unless the cleanup left nothing. -/
def userTurnOf (user_message : String) : Turn :=
  let ext := extract_image_url user_message
  { role := "user",
    content := if ext.1 ≠ "" then ext.1 else user_message,
    image_url := ext.2 }

/-- The `CONVERSATION SO FAR` rendering: last 12 turns as
`ROLE: text [Image: ref]` lines. -/
def renderConversation (hist : List Turn) : String :=
  String.intercalate "\n" ((hist.drop (hist.length - 12)).map (fun m =>
    m.role.toUpper ++ ": " ++ m.content ++
    (match m.image_url with
     | some u => if u ≠ "" then " [Image: " ++ u ++ "]" else ""
     | none => "")))

/-- The composite prompt (agent.py lines 322–340). -/
def buildFullPrompt (system_instructions conversation : String) : String :=
  pyStrip ("\n" ++ system_instructions ++
    "\n\n---\n\nCONVERSATION SO FAR:\n" ++ conversation ++
    "\n\n---\n\nINSTRUCTIONS:\nFollow your workflow as defined in the system instructions above. Have a natural conversation with the user.\n\nWhen you\x27re ready to generate an image, use this exact format:\n[TRIGGER_GENERATE_NANOBANANA]\nIMAGE_PROMPT: <detailed single-line prompt for image generation>\n\nOtherwise, respond naturally to continue the conversation.\n")

/-- Raw reply of the text model for this turn (the user turn is part of the
rendered conversation; `st` is the state before that turn is appended). -/
def rawModelReply (st : AgentState) (user_message : String) (o : Oracle) : String :=
  o.genText (buildFullPrompt st.system_instructions
    (renderConversation (st.history ++ [userTurnOf user_message])))

/-- The opening store of a (truthy) transport-supplied `image_path` into
`product_image_path` (agent.py lines 246–248). -/
def storeImage (st0 : AgentState) (image_path : Option String) : AgentState :=
  match image_path with
  | some p => if p ≠ "" then { st0 with product_image_path := some p } else st0
  | none => st0

/-- The chat entry point of the agent.  The transport-supplied `image_path` is stored
first; the reset command and the start-over keywords short-circuit
everything else; afterwards the turn is logged, the model consulted, and
the reply dispatched through the selection path, the awaiting-text path,
the four trigger handlers, or returned as plain text. -/
def chat (st0 : AgentState) (user_message : String) (image_path : Option String)
    (o : Oracle) : AgentState × ChatResult :=
  let st := storeImage st0 image_path
  if user_message = "RESET_CONVERSATION" then
    ({ clearedOnReset st with history := [] },
     { type := "text", text := initialGreeting })
  else if startOverHit user_message then
    ({ clearedOnReset st with history := [resetMarkerTurn] },
     { type := "text", text := startOverMsg })
  else
    let um := if user_message = "START_CONVERSATION" then "Hola" else user_message
    let response_text := rawModelReply st um o
    let st := { st with history := st.history ++ [userTurnOf um] }
    let response_text_stripped := pyStrip response_text
    let sel := selectionOf st.history um
    match sel with
    | some r =>
      let st := { st with selected_reference := some r,
                          design_guidelines := r.design_guidelines }
      let hasImg : Bool := match st.product_image_path with
        | some p => p ≠ ""
        | none => false
      let st := if hasImg then { st with product_analysis := o.analysisResult } else st
      let st := { st with awaiting_text_input := true }
      let text_question := buildTextQuestion (typoElements st.design_guidelines)
      ({ st with history := st.history ++ [assistantTurn text_question] },
       { type := "text", text := text_question })
    | none =>
      if st.awaiting_text_input then
        let st := { st with awaiting_text_input := false }
        if noTextHit um then
          let st := { st with text_content := none }
          -- Dict read of the description with a default; the `none`
          -- arm is unreachable under the session invariant that the flag is
          -- only ever set together with a selection.
          let descr := match st.selected_reference with
            | some r => r.description.getD "Referencia seleccionada"
            | none => "Referencia seleccionada"
          let ready_msg :=
            "Perfecto! Tengo todo listo para crear tu post sin texto:\n- " ++ descr ++
            "\n\n**Cuando quieras generar el post, apretá el botón \x27Generar\x27 y listo.**"
          ({ st with history := st.history ++ [assistantTurn ready_msg] },
           { type := "text", text := ready_msg })
        else
          let tc := parse_text_content um
          let st := { st with text_content := some tc }
          let parts :=
            (match tc.headline with
             | some h => if h ≠ "" then ["- Título: \x27" ++ h ++ "\x27"] else []
             | none => []) ++
            (match tc.subheadline with
             | some h => if h ≠ "" then ["- Oferta/Subtítulo: \x27" ++ h ++ "\x27"] else []
             | none => []) ++
            (match tc.cta with
             | some h => if h ≠ "" then ["- Llamado a acción: \x27" ++ h ++ "\x27"] else []
             | none => [])
          let text_preview :=
            if parts.isEmpty then "- Texto personalizado"
            else String.intercalate "\n" parts
          let ready_msg :=
            "Perfecto! Tengo todo listo para crear tu post:\n" ++ text_preview ++
            "\n- Basado en la referencia que elegiste\n\n**Cuando quieras generar el post, apretá el botón \x27Generar\x27 y listo.**"
          ({ st with history := st.history ++ [assistantTurn ready_msg] },
           { type := "text", text := ready_msg })
      else if containsStr response_text_stripped "[TRIGGER_SEARCH_REFERENCES]" then
        handle_search_references st response_text_stripped o
      else if containsStr response_text_stripped "[TRIGGER_GENERATE_PIPELINE]" then
        handle_generate_pipeline st response_text_stripped o
      else if containsStr response_text_stripped "[TRIGGER_GENERATE_REEL]" then
        handle_generate_reel st response_text_stripped o
      else if containsStr response_text_stripped "[TRIGGER_GENERATE_NANOBANANA]" ∨
          containsStr response_text_stripped "CALL_TOOL: GENERATE_IMAGE" then
        handle_legacy_image st um response_text response_text_stripped o
      else
        ({ st with history := st.history ++ [assistantTurn response_text_stripped] },
         { type := "text", text := response_text_stripped })

/-! ## Claim C6 — the text-spec parser -/

/-- C6: for every raw input, `_parse_text_content` assigns the fragments
produced by the split/trim/filter pipeline (`textPieces`) by count — three
or more fragments become headline/subheadline/cta with extras dropped, two
become headline plus cta exactly when the second contains a call-to-action
keyword (else subheadline), one becomes the headline, and with no
fragments the whole trimmed message becomes the headline; in particular
the quoted three-fragment example yields headline `Frío`,
subheadline `Rico`, cta `Comprá ya`. -/
theorem C6_parse_text_content_assignment :
    (∀ msg : String,
      parse_text_content msg =
        match textPieces msg with
        | a :: b :: c :: _ =>
          { headline := some a, subheadline := some b, cta := some c }
        | [a, b] =>
          if ctaKeywordHit b then { headline := some a, cta := some b }
          else { headline := some a, subheadline := some b }
        | [a] => { headline := some a }
        | [] => { headline := some (pyStrip msg) }) ∧
    parse_text_content "\"Frío\" y \"Rico\" y \"Comprá ya\"" =
      { headline := some "Frío", subheadline := some "Rico",
        cta := some "Comprá ya" } := by
  constructor
  · intro msg
    unfold parse_text_content
    rcases h : textPieces msg with _ | ⟨a, _ | ⟨b, _ | ⟨c, rest⟩⟩⟩
    · simp [h]
    · simp [h]
    · by_cases hb : ctaKeywordHit b <;> simp [h, hb]
    · simp [h]
  · decide

/-! ## Claim C7 — URL priority in `_extract_image_url` -/

/-- C7: whenever the text contains an HTTP/HTTPS URL (leftmost match `u`)
and also a file-path-like token, the URL is returned as the image source —
never the file path — and the cleaned text is the message with every
occurrence of the matched substring removed and whitespace collapsed. -/
theorem C7_url_beats_file_path (msg : String) (u : List Char)
    (hu : urlFindFirst msg.data = some u)
    (_hf : fileFindFirst msg.data ≠ none) :
    (extract_image_url msg).2 = some (⟨u⟩ : String) ∧
    (extract_image_url msg).1 =
      collapseWs (pyStrip (removeAllSub (⟨u⟩ : String) msg)) := by
  unfold extract_image_url
  rw [hu]
  exact ⟨rfl, rfl⟩

/-- Witness for C7: in `"foto.png mira https://ex.com/a.jpg porfa"` the
file-path token precedes the URL, yet the URL is chosen. -/
theorem C7_url_beats_file_path_witness :
    urlFindFirst "foto.png mira https://ex.com/a.jpg porfa".data =
      some "https://ex.com/a.jpg".data ∧
    fileFindFirst "foto.png mira https://ex.com/a.jpg porfa".data ≠ none ∧
    (extract_image_url "foto.png mira https://ex.com/a.jpg porfa").2 =
      some "https://ex.com/a.jpg" ∧
    (extract_image_url "foto.png mira https://ex.com/a.jpg porfa").1 =
      "foto.png mira porfa" := by
  refine ⟨by decide, by decide, ?_, ?_⟩
  · exact (C7_url_beats_file_path _ _ (by decide) (by decide)).1
  · have h := (C7_url_beats_file_path
      "foto.png mira https://ex.com/a.jpg porfa"
      "https://ex.com/a.jpg".data (by decide) (by decide)).2
    rw [h]; decide

/-! ## Claim C8 — session store eviction and touch -/

/-- Containment from membership. -/
theorem contains_of_mem {α : Type} [BEq α] [LawfulBEq α] {l : List α} {a : α}
    (h : a ∈ l) : l.contains a = true := by
  induction h with
  | head => simp [List.contains_cons]
  | tail b _ ih => rw [List.contains_cons, ih, Bool.or_true]

/-- Containment is false off the list. -/
theorem contains_false_of_not_mem {α : Type} [BEq α] [LawfulBEq α]
    {l : List α} {a : α} (h : a ∉ l) : l.contains a = false := by
  induction l with
  | nil => rfl
  | cons x t ih =>
    rw [List.contains_cons]
    have h1 : (a == x) = false :=
      beq_eq_false_iff_ne.mpr (fun e => h (e ▸ List.mem_cons_self _ _))
    rw [h1, Bool.false_or]
    exact ih (fun hm => h (List.mem_cons_of_mem _ hm))

/-- Membership from `List.contains`. -/
theorem mem_of_contains {α : Type} [BEq α] [LawfulBEq α] {l : List α} {a : α}
    (h : l.contains a = true) : a ∈ l := by
  by_contra hn
  rw [contains_false_of_not_mem hn] at h
  exact Bool.false_ne_true h

/-- A successful lookup names an actual entry. -/
theorem lookupLast_mem {sid : String} {t : Int} {l : List (String × Int)}
    (h : lookupLast sid l = some t) : (sid, t) ∈ l := by
  induction l with
  | nil => simp [lookupLast] at h
  | cons p rest ih =>
    obtain ⟨p1, p2⟩ := p
    by_cases hp : p1 = sid
    · simp [lookupLast, hp] at h
      subst hp; subst h
      exact List.mem_cons_self _ _
    · simp [lookupLast, hp] at h
      exact List.mem_cons_of_mem _ (ih h)

/-- Lookup fails when no entry carries the key. -/
theorem lookupLast_none {sid : String} {l : List (String × Int)}
    (h : ∀ p ∈ l, p.1 ≠ sid) : lookupLast sid l = none := by
  induction l with
  | nil => rfl
  | cons p rest ih =>
    have hp := h p (List.mem_cons_self _ _)
    simp [lookupLast, hp]
    exact ih (fun q hq => h q (List.mem_cons_of_mem _ hq))

/-- Writing a stamp always leaves the written value readable. -/
theorem lookupLast_setLast (sid : String) (now : Int) (l : List (String × Int)) :
    lookupLast sid (setLast sid now l) = some now := by
  induction l with
  | nil => simp [setLast, lookupLast]
  | cons p rest ih =>
    by_cases hp : p.1 = sid
    · simp [setLast, hp, lookupLast]
    · simp [setLast, hp, lookupLast, ih]

/-- With unique keys, a fresh entry surviving a filter stays readable. -/
theorem lookupLast_filter_keep {sid : String} {t : Int} {l : List (String × Int)}
    (q : String × Int → Bool)
    (h : lookupLast sid l = some t)
    (hnd : (l.map Prod.fst).Nodup)
    (hq : q (sid, t) = true) :
    lookupLast sid (l.filter q) = some t := by
  induction l with
  | nil => simp [lookupLast] at h
  | cons p rest ih =>
    by_cases hp : p.1 = sid
    · simp [lookupLast, hp] at h
      have hpp : p = (sid, t) := by
        obtain ⟨p1, p2⟩ := p
        simp_all
      subst hpp
      simp [List.filter, hq, lookupLast]
    · simp [lookupLast, hp] at h
      simp only [List.map, List.nodup_cons] at hnd
      by_cases hqp : q p = true
      · simp [List.filter, hqp, lookupLast, hp]
        exact ih h hnd.2
      · simp only [List.filter, Bool.not_eq_true] at hqp ⊢
        rw [hqp]
        exact ih h hnd.2

/-- C8: after an eviction pass at time `now` a session whose `last_used`
stamp is older than the one-hour timeout is gone from the store, while (for
a well-formed registry with unique keys) every session within the timeout
survives with its stamp intact; and `get_or_create_agent` always re-stamps
the last-used stamp of the session to the current time and leaves it registered. -/
theorem C8_session_store_eviction (s : Store) (now : Int) (sid : String) (t : Int) :
    (lookupLast sid s.session_last_used = some t → now - t > SESSION_TIMEOUT →
      sid ∉ (cleanup_old_sessions now s).agents ∧
      lookupLast sid (cleanup_old_sessions now s).session_last_used = none) ∧
    ((s.session_last_used.map Prod.fst).Nodup →
     lookupLast sid s.session_last_used = some t → now - t ≤ SESSION_TIMEOUT →
      (sid ∈ s.agents → sid ∈ (cleanup_old_sessions now s).agents) ∧
      lookupLast sid (cleanup_old_sessions now s).session_last_used = some t) ∧
    (lookupLast sid (get_or_create_agent sid now s).session_last_used = some now ∧
      sid ∈ (get_or_create_agent sid now s).agents) := by
  refine ⟨?_, ?_, ?_, ?_⟩
  · intro hl hold
    have hmem : (sid, t) ∈ s.session_last_used := lookupLast_mem hl
    have hrem : sid ∈ (s.session_last_used.filter
        (fun p => now - p.2 > SESSION_TIMEOUT)).map Prod.fst := by
      refine List.mem_map.mpr ⟨(sid, t), ?_, rfl⟩
      exact List.mem_filter.mpr ⟨hmem, by simpa using hold⟩
    constructor
    · intro hin
      rcases List.mem_filter.mp hin with ⟨_, hcond⟩
      rw [contains_of_mem hrem] at hcond
      exact Bool.false_ne_true hcond
    · apply lookupLast_none
      intro p hp heq
      rcases List.mem_filter.mp hp with ⟨_, hcond⟩
      rw [heq, contains_of_mem hrem] at hcond
      exact Bool.false_ne_true hcond
  · intro hnd hl hfresh
    have hmem : (sid, t) ∈ s.session_last_used := lookupLast_mem hl
    have hnotrem : sid ∉ (s.session_last_used.filter
        (fun p => now - p.2 > SESSION_TIMEOUT)).map Prod.fst := by
      intro hin
      rcases List.mem_map.mp hin with ⟨p, hpf, hp1⟩
      rcases List.mem_filter.mp hpf with ⟨hpmem, hpcond⟩
      have hpeq : p = (sid, t) :=
        List.inj_on_of_nodup_map hnd hpmem hmem (by simpa using hp1)
      rw [hpeq] at hpcond
      simp only [decide_eq_true_eq] at hpcond
      omega
    constructor
    · intro hin
      refine List.mem_filter.mpr ⟨hin, ?_⟩
      rw [contains_false_of_not_mem hnotrem]
      rfl
    · refine lookupLast_filter_keep _ hl hnd ?_
      rw [contains_false_of_not_mem hnotrem]
      rfl
  · rw [get_or_create_agent]
    exact lookupLast_setLast _ _ _
  · rw [get_or_create_agent]
    set s1 := if s.agents.length ≥ MAX_AGENTS then cleanup_old_sessions now s else s with hs1
    by_cases hc : s1.agents.contains sid
    · simp only [hc, if_true]
      exact mem_of_contains hc
    · simp only [hc, if_false]
      simp

/-- A concrete two-session registry for the C8 witness: `"old"` last used at
time 0, `"fresh"` at time 7000. -/
def c8Store : Store :=
  { agents := ["old", "fresh"],
    session_last_used := [("old", 0), ("fresh", 7000)] }

/-- Witness for C8 at wall time 7200: the hour-idle session is evicted, the
recently-touched one survives with its stamp, and `get_or_create_agent`
stamps a new session with the current time. -/
theorem C8_session_store_eviction_witness :
    ("old" ∉ (cleanup_old_sessions 7200 c8Store).agents) ∧
    lookupLast "old" (cleanup_old_sessions 7200 c8Store).session_last_used = none ∧
    ("fresh" ∈ (cleanup_old_sessions 7200 c8Store).agents) ∧
    lookupLast "fresh" (cleanup_old_sessions 7200 c8Store).session_last_used = some 7000 ∧
    lookupLast "new" (get_or_create_agent "new" 7200 c8Store).session_last_used = some 7200 ∧
    "new" ∈ (get_or_create_agent "new" 7200 c8Store).agents := by
  have h1 := (C8_session_store_eviction c8Store 7200 "old" 0).1 (by decide) (by decide)
  have h2 := (C8_session_store_eviction c8Store 7200 "fresh" 7000).2.1
    (by decide) (by decide) (by decide)
  have h3 := (C8_session_store_eviction c8Store 7200 "new" 0).2.2
  exact ⟨h1.1, h1.2, h2.1 (by decide), h2.2, h3.1, h3.2⟩

/-! ## Claims C1 and C10 — reset semantics -/

/-- Behaviour of chat on the explicit reset command: all six task fields cleared and
the history erased outright (no marker), for any supplied image path. -/
theorem chat_resetCmd (st : AgentState) (ip : Option String) (o : Oracle) :
    chat st "RESET_CONVERSATION" ip o =
      ({ clearedOnReset st with history := [] },
       { type := "text", text := initialGreeting }) := by
  unfold chat
  cases ip with
  | none => simp [storeImage]
  | some p =>
    by_cases hp : p = "" <;> simp [hp, clearedOnReset, storeImage]

/-- Behaviour of chat on a start-over keyword: all six task fields cleared and the
history replaced by the single reset-marker turn. -/
theorem chat_startOver (st : AgentState) (ip : Option String) (o : Oracle)
    (msg : String) (h : startOverHit msg = true)
    (hne : msg ≠ "RESET_CONVERSATION") :
    chat st msg ip o =
      ({ clearedOnReset st with history := [resetMarkerTurn] },
       { type := "text", text := startOverMsg }) := by
  unfold chat
  cases ip with
  | none => simp [hne, h, storeImage]
  | some p =>
    by_cases hp : p = "" <;> simp [hp, hne, h, clearedOnReset, storeImage]

/-- A turn sitting in history before the C1 counterexample reset. -/
def c1PrevTurn : Turn := assistantTurn "anterior"

/-- The session of the C1 counterexample: one stored turn plus task state. -/
def c1State : AgentState :=
  { history := [c1PrevTurn], product_image_path := some "p.png",
    text_content := some { headline := some "x" } }

/-- An oracle whose externals are never reached on the reset paths. -/
def c1Oracle : Oracle := { genText := fun _ => "" }

/-- Counterexample for C1: the claim says reset "leaves the previously
stored history turns in place (history is not erased)" and that the
explicit reset command also appends a reset-marker turn.  In fact a
start-over message erases the history, leaving only the marker turn, and
the explicit reset command leaves the history empty with no marker at all. -/
theorem C1_counterexample :
    c1PrevTurn ∈ c1State.history ∧
    (chat c1State "quiero otro producto" none c1Oracle).1.history = [resetMarkerTurn] ∧
    c1PrevTurn ∉ (chat c1State "quiero otro producto" none c1Oracle).1.history ∧
    (chat c1State "RESET_CONVERSATION" none c1Oracle).1.history = [] := by
  refine ⟨by decide, ?_, ?_, ?_⟩
  · rw [chat_startOver c1State none c1Oracle _ (by decide) (by decide)]
  · rw [chat_startOver c1State none c1Oracle _ (by decide) (by decide)]
    decide
  · rw [chat_resetCmd c1State none c1Oracle]

/-- C1 (amended): a start-over keyword or the explicit reset command clears
`selected_reference`, `product_image_path`, `text_content`,
`awaiting_text_input`, `design_guidelines` and `product_analysis`; the
start-over path erases the history and replaces it with the single
reset-marker turn, while the explicit reset command erases the history
entirely and appends no marker. -/
theorem C1_reset_clears_state (st : AgentState) (ip : Option String)
    (o : Oracle) (msg : String)
    (h : msg = "RESET_CONVERSATION" ∨ startOverHit msg = true) :
    (chat st msg ip o).1.selected_reference = none ∧
    (chat st msg ip o).1.product_image_path = none ∧
    (chat st msg ip o).1.text_content = none ∧
    (chat st msg ip o).1.awaiting_text_input = false ∧
    (chat st msg ip o).1.design_guidelines = none ∧
    (chat st msg ip o).1.product_analysis = none ∧
    (msg = "RESET_CONVERSATION" → (chat st msg ip o).1.history = []) ∧
    (msg ≠ "RESET_CONVERSATION" →
      (chat st msg ip o).1.history = [resetMarkerTurn]) := by
  by_cases hr : msg = "RESET_CONVERSATION"
  · subst hr
    rw [chat_resetCmd st ip o]
    simp [clearedOnReset]
  · have hk : startOverHit msg = true := h.resolve_left hr
    rw [chat_startOver st ip o msg hk hr]
    simp [clearedOnReset, hr]

/-- Witness for C1 at a concrete busy session and the keyword message
`"quiero otro producto"`. -/
theorem C1_reset_clears_state_witness :
    ((chat c1State "quiero otro producto" (some "nuevo.png") c1Oracle).1.selected_reference = none ∧
     (chat c1State "quiero otro producto" (some "nuevo.png") c1Oracle).1.product_image_path = none ∧
     (chat c1State "quiero otro producto" (some "nuevo.png") c1Oracle).1.text_content = none) ∧
    (chat c1State "quiero otro producto" (some "nuevo.png") c1Oracle).1.history = [resetMarkerTurn] := by
  have h := C1_reset_clears_state c1State (some "nuevo.png") c1Oracle
    "quiero otro producto" (Or.inr (by decide))
  exact ⟨⟨h.1, h.2.1, h.2.2.1⟩, h.2.2.2.2.2.2.2 (by decide)⟩

/-- C10: an image path supplied together with a reset-triggering message is
first stored on the session and then wiped by the reset: after the turn the
session holds no product image. -/
theorem C10_uploaded_image_discarded_on_reset (st : AgentState) (o : Oracle)
    (msg p : String)
    (h : msg = "RESET_CONVERSATION" ∨ startOverHit msg = true) :
    (chat st msg (some p) o).1.product_image_path = none := by
  by_cases hr : msg = "RESET_CONVERSATION"
  · subst hr
    rw [chat_resetCmd st (some p) o]
    simp [clearedOnReset]
  · have hk : startOverHit msg = true := h.resolve_left hr
    rw [chat_startOver st (some p) o msg hk hr]
    simp [clearedOnReset]

/-- Witness for C10: an upload in the same turn as `"otro producto"`. -/
theorem C10_uploaded_image_discarded_on_reset_witness :
    (chat { history := [] } "me gustaría usar otro producto" (some "upload.png")
      c1Oracle).1.product_image_path = none :=
  C10_uploaded_image_discarded_on_reset { history := [] } c1Oracle
    "me gustaría usar otro producto" "upload.png" (Or.inr (by decide))

/-! ## Claim C3 — handler history appends and result shapes -/

/-- The three result shapes of the dispatch contract. -/
def isDispatchKind (r : ChatResult) : Prop :=
  r.type = "text" ∨ r.type = "image" ∨ r.type = "reference_options"

/-- Exactly one assistant turn was appended to the history. -/
def appendsAssistant (old new : List Turn) : Prop :=
  ∃ t : Turn, new = old ++ [t] ∧ t.role = "assistant"

/-- C3 (amended): the search, pipeline and legacy handlers append exactly
one assistant turn to the history on every path (success and failure) and
return a result of one of the three shapes; the reel handler also returns
one of the three shapes but never appends to the history — it leaves the
session state untouched on every path. -/
theorem C3_handlers_history_and_shapes (st : AgentState) (o : Oracle)
    (rt um rtRaw : String) :
    (appendsAssistant st.history (handle_search_references st rt o).1.history ∧
      isDispatchKind (handle_search_references st rt o).2) ∧
    (appendsAssistant st.history (handle_generate_pipeline st rt o).1.history ∧
      isDispatchKind (handle_generate_pipeline st rt o).2) ∧
    (appendsAssistant st.history (handle_legacy_image st um rtRaw rt o).1.history ∧
      isDispatchKind (handle_legacy_image st um rtRaw rt o).2) ∧
    ((handle_generate_reel st rt o).1 = st ∧
      isDispatchKind (handle_generate_reel st rt o).2) := by
  refine ⟨⟨?_, ?_⟩, ⟨?_, ?_⟩, ⟨?_, ?_⟩, ⟨?_, ?_⟩⟩ <;>
    simp only [handle_search_references, handle_generate_pipeline,
      handle_legacy_image, handle_generate_reel, isDispatchKind,
      appendsAssistant] <;>
    repeat first
    | exact ⟨_, rfl, rfl⟩
    | rfl
    | (left; rfl)
    | (right; left; rfl)
    | (right; right; rfl)
    | split

/-- Session for the C3 counterexample: empty history, image stored. -/
def c3State : AgentState := { history := [], product_image_path := some "p.png" }

/-- Oracle whose reel backend accepts the job. -/
def c3Oracle : Oracle :=
  { genText := fun _ => "",
    reelBackend := fun _ => .ok (200, { status := "accepted", postId := some "post-1" }) }

/-- Counterexample for C3: the reel handler returns its final
assistant-visible message — on the success path and on the missing-PROMPT
failure path alike — without ever appending it (or anything) to the
conversation history, contradicting the claim that every one of the four
handlers appends its final message before returning. -/
theorem C3_counterexample :
    (handle_generate_reel c3State "[TRIGGER_GENERATE_REEL]\nPROMPT: video del producto"
        c3Oracle).2.text =
      "Listo. Estoy generando tu reel ahora. Te avisamos cuando esté listo para subir en **Mis posts**." ∧
    (handle_generate_reel c3State "[TRIGGER_GENERATE_REEL]\nPROMPT: video del producto"
        c3Oracle).1.history = [] ∧
    (handle_generate_reel c3State "[TRIGGER_GENERATE_REEL]\nCAPTION: hola"
        c1Oracle).2.text = "Faltó el PROMPT para generar el reel." ∧
    (handle_generate_reel c3State "[TRIGGER_GENERATE_REEL]\nCAPTION: hola"
        c1Oracle).1.history = [] := by
  refine ⟨by decide, by decide, by decide, by decide⟩

/-! ## Claim C5 — pipeline handler error handling -/

/-- C5: the pipeline handler is total over every backend outcome — with no
stored product image it returns the user-visible missing-image text; when
the call raises (modelled as `Except.error`) it returns the graceful retry
text; when the backend answers without `success`/`finalImagePath` it
returns the failure retry text; and a success response carrying a non-empty
`finalImagePath` yields a result of type `image` whose `file` equals that
path. -/
theorem C5_pipeline_error_handling (st : AgentState) (o : Oracle) (rt : String) :
    (st.product_image_path = none →
      (handle_generate_pipeline st rt o).2 =
        { type := "text", text := "No product image available for generation" }) ∧
    (∀ pimg e, st.product_image_path = some pimg →
      o.pipelineBackend (pipelineDataOf st rt) = .error e →
      (handle_generate_pipeline st rt o).2 =
        { type := "text",
          text := "Tuve un problema generando la imagen. ¿Intentamos de nuevo?" }) ∧
    (∀ pimg resp, st.product_image_path = some pimg →
      o.pipelineBackend (pipelineDataOf st rt) = .ok resp →
      (resp.success = false ∨ resp.finalImagePath.getD "" = "") →
      (handle_generate_pipeline st rt o).2 =
        { type := "text",
          text := "La generación de imagen falló. ¿Intentamos de nuevo?" }) ∧
    (∀ pimg resp p, st.product_image_path = some pimg →
      o.pipelineBackend (pipelineDataOf st rt) = .ok resp →
      resp.success = true → resp.finalImagePath = some p → p ≠ "" →
      (handle_generate_pipeline st rt o).2.type = "image" ∧
      (handle_generate_pipeline st rt o).2.file = some p) := by
  refine ⟨?_, ?_, ?_, ?_⟩
  · intro h
    simp only [handle_generate_pipeline, h]
  · intro pimg e h hb
    simp only [handle_generate_pipeline, h, hb]
  · intro pimg resp h hb hcond
    simp only [handle_generate_pipeline, h, hb]
    rw [if_pos hcond]
  · intro pimg resp p h hb hs hf hne
    simp only [handle_generate_pipeline, h, hb]
    rw [if_neg ?_]
    · simp [hf]
    · rintro (h1 | h2)
      · rw [hs] at h1
        exact Bool.noConfusion h1
      · rw [hf] at h2
        exact hne h2

/-- States and oracles for the C5 witness. -/
def c5StateNoImg : AgentState := {}

/-- Session with a stored product image. -/
def c5StateImg : AgentState := { product_image_path := some "uploads/p.png" }

/-- Backend raising on every pipeline call. -/
def c5OracleErr : Oracle :=
  { genText := fun _ => "", pipelineBackend := fun _ => .error "timeout" }

/-- Backend answering without success. -/
def c5OracleBad : Oracle :=
  { genText := fun _ => "", pipelineBackend := fun _ => .ok { success := false } }

/-- Backend answering success with a final image path. -/
def c5OracleOk : Oracle :=
  { genText := fun _ => "",
    pipelineBackend := fun _ =>
      .ok { success := true, finalImagePath := some "outputs/final.png" } }

/-- Witness for C5 covering all four branches at concrete inputs. -/
theorem C5_pipeline_error_handling_witness :
    (handle_generate_pipeline c5StateNoImg "PROMPT: x" c5OracleErr).2 =
      { type := "text", text := "No product image available for generation" } ∧
    (handle_generate_pipeline c5StateImg "PROMPT: x" c5OracleErr).2 =
      { type := "text",
        text := "Tuve un problema generando la imagen. ¿Intentamos de nuevo?" } ∧
    (handle_generate_pipeline c5StateImg "PROMPT: x" c5OracleBad).2 =
      { type := "text",
        text := "La generación de imagen falló. ¿Intentamos de nuevo?" } ∧
    (handle_generate_pipeline c5StateImg "PROMPT: x" c5OracleOk).2.type = "image" ∧
    (handle_generate_pipeline c5StateImg "PROMPT: x" c5OracleOk).2.file =
      some "outputs/final.png" := by
  refine ⟨?_, ?_, ?_, ?_⟩
  · exact (C5_pipeline_error_handling c5StateNoImg c5OracleErr "PROMPT: x").1 rfl
  · exact (C5_pipeline_error_handling c5StateImg c5OracleErr "PROMPT: x").2.1
      "uploads/p.png" "timeout" rfl rfl
  · exact (C5_pipeline_error_handling c5StateImg c5OracleBad "PROMPT: x").2.2.1
      "uploads/p.png" { success := false } rfl rfl (Or.inl rfl)
  · exact (C5_pipeline_error_handling c5StateImg c5OracleOk "PROMPT: x").2.2.2
      "uploads/p.png" { success := true, finalImagePath := some "outputs/final.png" }
      "outputs/final.png" rfl rfl rfl rfl (by decide)

/-! ## Claim C9 — the parsed SKIP_TEXT field is never used -/

/-- Session with stored text content for the C9 demonstration. -/
def c9State : AgentState :=
  { product_image_path := some "p.png",
    text_content := some { headline := some "Oferta" } }

/-- A model output whose trigger block demands `SKIP_TEXT: true`. -/
def c9Rt : String := "[TRIGGER_GENERATE_PIPELINE]\nPROMPT: foto\nSKIP_TEXT: true"

/-- A spy backend that succeeds exactly when the submitted `skipText` is
`"false"`, making the transmitted value observable in the handler result. -/
def c9SpyOracle : Oracle :=
  { genText := fun _ => "",
    pipelineBackend := fun d =>
      if d.skipText = "false" then
        .ok { success := true, finalImagePath := some "ok.png" }
      else .error "spy" }

/-- C9: the `skipText` field of the submitted pipeline form is a function of
the stored text content of the session alone — `"true"` exactly when no text
content is held — the parsed `SKIP_TEXT` value not being an input of the
form construction at all; concretely, with stored text and a trigger block
saying `SKIP_TEXT: true` (which the parameter scan does read into its
`skip_text` slot) the handler still submits `skipText = "false"`, as the
success of the spy backend shows. -/
theorem C9_skip_text_never_used :
    (∀ (st : AgentState) (prompt reference_image : String),
      (buildPipelineData st prompt reference_image).skipText =
        if hasTextContent st then "false" else "true") ∧
    (pipelineParams "" c9Rt).skip_text = "true" ∧
    (handle_generate_pipeline c9State c9Rt c9SpyOracle).2.type = "image" ∧
    (handle_generate_pipeline c9State c9Rt c9SpyOracle).2.file = some "ok.png" := by
  refine ⟨?_, by decide, by decide, by decide⟩
  intro st prompt reference_image
  unfold buildPipelineData
  by_cases h : hasTextContent st
  · rw [if_pos h, if_pos h]
    cases hc : st.text_content with
    | none => rfl
    | some tc => rfl
  · rw [if_neg h, if_neg h]

/-! ## Claim C2 — occurrence order inside trigger blocks -/

/-- Boolean prefix test versus the propositional prefix relation. -/
theorem prefixOf_iff {A : Type} [BEq A] [LawfulBEq A] {l1 l2 : List A} :
    l1.isPrefixOf l2 = true ↔ l1 <+: l2 := by
  exact List.isPrefixOf_iff_prefix

/-- Two prefixes of the same string nest: the shorter is a prefix of the
longer.  Used to discharge the mutual exclusion of `KEY:` guards. -/
theorem strStarts_nest {s p q : String} (hp : strStarts s p = true)
    (hq : strStarts s q = true) (hle : q.data.length ≤ p.data.length) :
    q.data.isPrefixOf p.data = true := by
  unfold strStarts at hp hq
  rw [prefixOf_iff] at hp hq ⊢
  exact List.prefix_of_prefix_length_le hq hp hle

/-- A line starting with `p` cannot start with an incompatible `q`
(neither string a prefix of the other). -/
theorem strStarts_false_of_conflict {s : String} (p q : String)
    (hp : strStarts s p = true)
    (hn : (q.data.isPrefixOf p.data || p.data.isPrefixOf q.data) = false) :
    strStarts s q = false := by
  rw [Bool.or_eq_false_iff] at hn
  by_contra h
  rw [Bool.not_eq_false] at h
  rcases Nat.le_total q.data.length p.data.length with hle | hle
  · rw [strStarts_nest hp h hle] at hn
    exact Bool.noConfusion hn.1
  · rw [strStarts_nest h hp hle] at hn
    exact Bool.noConfusion hn.2

/-- Once the pipeline scan holds a non-empty reference image, later lines
never change it. -/
theorem pipelineRef_stays (ls : List String) :
    ∀ acc : PipelineParams, acc.reference_image ≠ "" →
      (List.foldl pipelineParamStep acc ls).reference_image = acc.reference_image := by
  induction ls with
  | nil => intro acc _; rfl
  | cons l rest ih =>
    intro acc hne
    rw [List.foldl_cons]
    have hstep : (pipelineParamStep acc l).reference_image = acc.reference_image := by
      unfold pipelineParamStep
      rw [if_neg (fun hc => hne hc.2)]
      split
      · rfl
      · split
        · rfl
        · rfl
    rw [ih _ (by rw [hstep]; exact hne), hstep]

/-- C2 (amended): inside the key-value block of a trigger the *last*
occurrence wins for QUERY and LIMIT of the search handler, for
PRODUCT_IMAGE, PROMPT and CAPTION of the reel handler and for
PROMPT and SKIP_TEXT (each matching line overwrites the slot); the
REFERENCE_IMAGE of the pipeline handler keeps the first non-empty value; and
only the IMAGE_PROMPT/PROMPT scan of the legacy handler stops at the first
matching line. -/
theorem C2_occurrence_order (ls : List String) (line : String) :
    (strStarts (pyStrip line) "QUERY:" = true →
      ((ls ++ [line]).foldl searchParamStep ("", 3)).1 = lineVal 6 line) ∧
    (strStarts (pyStrip line) "LIMIT:" = true →
      ((ls ++ [line]).foldl searchParamStep ("", 3)).2 =
        (pyInt (lineVal 6 line)).getD 3) ∧
    (strStarts line "PRODUCT_IMAGE:" = true →
      ((ls ++ [line]).foldl reelParamStep {}).product_image =
        (if pyStrip (afterColon line) = "" then none
         else some (pyStrip (afterColon line)))) ∧
    (strStarts line "PROMPT:" = true →
      ((ls ++ [line]).foldl reelParamStep {}).prompt =
        some (pyStrip (afterColon line))) ∧
    (strStarts line "CAPTION:" = true →
      ((ls ++ [line]).foldl reelParamStep {}).caption =
        some (pyStrip (afterColon line))) ∧
    (∀ acc : PipelineParams, strStarts (pyStrip line) "PROMPT:" = true →
      ((ls ++ [line]).foldl pipelineParamStep acc).prompt = lineVal 7 line) ∧
    (∀ acc : PipelineParams, strStarts (pyStrip line) "SKIP_TEXT:" = true →
      ((ls ++ [line]).foldl pipelineParamStep acc).skip_text = lineVal 10 line) ∧
    (∀ acc : PipelineParams,
      (List.foldl pipelineParamStep acc ls).reference_image = "" →
      strStarts (pyStrip line) "REFERENCE_IMAGE:" = true →
      ((ls ++ [line]).foldl pipelineParamStep acc).reference_image = lineVal 16 line) ∧
    (∀ acc : PipelineParams, acc.reference_image ≠ "" →
      (List.foldl pipelineParamStep acc ls).reference_image = acc.reference_image) ∧
    (strStarts (pyStrip line) "IMAGE_PROMPT:" = true →
      legacyPromptLines (line :: ls) = pyStrip ((pyStrip line).drop 13)) ∧
    (strStarts (pyStrip line) "PROMPT:" = true →
      legacyPromptLines (line :: ls) = pyStrip ((pyStrip line).drop 7)) := by
  refine ⟨?_, ?_, ?_, ?_, ?_, ?_, ?_, ?_, pipelineRef_stays ls, ?_, ?_⟩
  · intro h
    simp [List.foldl_append, searchParamStep, h]
  · intro h
    have hq : strStarts (pyStrip line) "QUERY:" = false :=
      strStarts_false_of_conflict "LIMIT:" "QUERY:" h (by decide)
    simp [List.foldl_append, searchParamStep, h, hq]
  · intro h
    simp [List.foldl_append, reelParamStep, h]
  · intro h
    have h1 : strStarts line "PRODUCT_IMAGE:" = false :=
      strStarts_false_of_conflict "PROMPT:" "PRODUCT_IMAGE:" h (by decide)
    simp [List.foldl_append, reelParamStep, h, h1]
  · intro h
    have h1 : strStarts line "PRODUCT_IMAGE:" = false :=
      strStarts_false_of_conflict "CAPTION:" "PRODUCT_IMAGE:" h (by decide)
    have h2 : strStarts line "PROMPT:" = false :=
      strStarts_false_of_conflict "CAPTION:" "PROMPT:" h (by decide)
    simp [List.foldl_append, reelParamStep, h, h1, h2]
  · intro acc h
    have h1 : strStarts (pyStrip line) "REFERENCE_IMAGE:" = false :=
      strStarts_false_of_conflict "PROMPT:" "REFERENCE_IMAGE:" h (by decide)
    simp [List.foldl_append, pipelineParamStep, h, h1]
  · intro acc h
    have h1 : strStarts (pyStrip line) "REFERENCE_IMAGE:" = false :=
      strStarts_false_of_conflict "SKIP_TEXT:" "REFERENCE_IMAGE:" h (by decide)
    have h2 : strStarts (pyStrip line) "PROMPT:" = false :=
      strStarts_false_of_conflict "SKIP_TEXT:" "PROMPT:" h (by decide)
    simp [List.foldl_append, pipelineParamStep, h, h1, h2]
  · intro acc hempty h
    simp [List.foldl_append, pipelineParamStep, h, hempty]
  · intro h
    simp [legacyPromptLines, h]
  · intro h
    have h1 : strStarts (pyStrip line) "IMAGE_PROMPT:" = false :=
      strStarts_false_of_conflict "PROMPT:" "IMAGE_PROMPT:" h (by decide)
    simp [legacyPromptLines, h, h1]

/-- Counterexample for C2: with two `QUERY:` lines in a search trigger
block the second (last) value is used, not the first, and likewise for two
`PROMPT:` lines in a reel block — refuting "first occurrence wins per key"
for those handlers. -/
theorem C2_counterexample :
    (searchParams "[TRIGGER_SEARCH_REFERENCES]\nQUERY: primero\nQUERY: segundo").1 =
      "segundo" ∧
    (searchParams "[TRIGGER_SEARCH_REFERENCES]\nQUERY: primero\nQUERY: segundo").1 ≠
      "primero" ∧
    ((reelLines "\nPROMPT: primero\nPROMPT: segundo").foldl reelParamStep {}).prompt =
      some "segundo" := by
  refine ⟨by decide, by decide, by decide⟩

/-- Witness for C2 at concrete lines: the last `QUERY:` line decides the
search query, and the first `IMAGE_PROMPT:` line decides the legacy
prompt. -/
theorem C2_occurrence_order_witness :
    strStarts (pyStrip "QUERY: velas artesanales") "QUERY:" = true ∧
    ((["hola", "QUERY: otra"] ++ ["QUERY: velas artesanales"]).foldl
        searchParamStep ("", 3)).1 = lineVal 6 "QUERY: velas artesanales" ∧
    legacyPromptLines ("IMAGE_PROMPT: una vela" :: ["PROMPT: otra"]) =
      pyStrip ((pyStrip "IMAGE_PROMPT: una vela").drop 13) := by
  refine ⟨by decide, ?_, ?_⟩
  · exact (C2_occurrence_order ["hola", "QUERY: otra"]
      "QUERY: velas artesanales").1 (by decide)
  · exact (C2_occurrence_order ["PROMPT: otra"]
      "IMAGE_PROMPT: una vela").2.2.2.2.2.2.2.2.2.1 (by decide)

/-! ## Claim C4 — bare-integer reference selection

Support lemmas: a message whose stripped form is all digits cannot contain
a start-over keyword (every keyword holds a letter, and lower-casing
preserves digits and whitespace), so such a turn always reaches the
selection check. -/

/-- Digit or whitespace — the only characters a bare-integer message (with
surrounding whitespace) can contain. -/
def isDigitOrWs (c : Char) : Bool := c.isDigit || c.isWhitespace

/-- Lower-casing fixes digits. -/
theorem toLower_digit (c : Char) (h : c.isDigit = true) : c.toLower = c := by
  rw [Char.isDigit] at h
  rw [Bool.and_eq_true, decide_eq_true_eq, decide_eq_true_eq] at h
  rw [Char.toLower]
  rw [if_neg]
  rintro ⟨h1, _⟩
  have h2 : c.toNat ≤ 57 := by
    have hx := h.2
    rw [UInt32.le_def, BitVec.le_def] at hx
    simpa using hx
  omega

/-- Lower-casing fixes whitespace. -/
theorem toLower_ws (c : Char) (h : c.isWhitespace = true) : c.toLower = c := by
  simp [Char.isWhitespace] at h
  rcases h with ((h | h) | h) | h <;> subst h <;> decide

/-- Lower-casing preserves the digit-or-whitespace class. -/
theorem isDigitOrWs_toLower (c : Char) (h : isDigitOrWs c = true) :
    isDigitOrWs c.toLower = true := by
  rw [isDigitOrWs, Bool.or_eq_true] at h
  rcases h with h | h
  · rw [toLower_digit c h, isDigitOrWs, h, Bool.true_or]
  · rw [toLower_ws c h, isDigitOrWs, h, Bool.or_true]

/-- A character of `l` either survives `dropWhile p` or satisfies `p`. -/
theorem mem_dropWhile_or (p : Char → Bool) (l : List Char) :
    ∀ c ∈ l, c ∈ l.dropWhile p ∨ p c = true := by
  induction l with
  | nil => intro c hc; cases hc
  | cons x t ih =>
    intro c hc
    by_cases hx : p x = true
    · simp only [List.dropWhile_cons, hx, if_true]
      rcases List.mem_cons.mp hc with rfl | hct
      · right; exact hx
      · exact ih c hct
    · simp only [List.dropWhile_cons, hx, if_false]
      left; exact hc

/-- A character of `l` either survives a two-sided strip or satisfies `p`. -/
theorem mem_stripBy_or (p : Char → Bool) (l : List Char) :
    ∀ c ∈ l, c ∈ stripBy p l ∨ p c = true := by
  intro c hc
  unfold stripBy dropTailWhile
  rcases mem_dropWhile_or p l c hc with h1 | h1
  · rcases mem_dropWhile_or p (l.dropWhile p).reverse c
      (List.mem_reverse.mpr h1) with h2 | h2
    · left; exact List.mem_reverse.mpr h2
    · right; exact h2
  · right; exact h1

/-- Substring containment puts every character of the needle in the hay. -/
theorem listContainsSub_subset {hay needle : List Char}
    (h : listContainsSub hay needle = true) : ∀ c ∈ needle, c ∈ hay := by
  induction hay with
  | nil =>
    intro c hc
    rw [listContainsSub] at h
    have he : needle = [] := by simpa [List.isEmpty_iff] using h
    subst he; cases hc
  | cons x t ih =>
    rw [listContainsSub, Bool.or_eq_true] at h
    rcases h with h | h
    · intro c hc
      exact (prefixOf_iff.mp h).subset hc
    · intro c hc
      exact List.mem_cons_of_mem _ (ih h c hc)

/-- No substring match when the needle holds a character class the hay
excludes. -/
theorem listContainsSub_false {hay needle : List Char}
    (hh : ∀ c ∈ hay, isDigitOrWs c = true)
    (hbad : ∃ c ∈ needle, isDigitOrWs c = false) :
    listContainsSub hay needle = false := by
  rcases hbad with ⟨c, hcn, hcb⟩
  by_contra h
  rw [Bool.not_eq_false] at h
  rw [hh c (listContainsSub_subset h c hcn)] at hcb
  exact Bool.noConfusion hcb

/-- Every character of the lower-cased form of a bare-integer message is a
digit or whitespace. -/
theorem digit_msg_chars (msg : String) (hd : isDigitStr (pyStrip msg) = true) :
    ∀ c ∈ (lowerStr msg).data, isDigitOrWs c = true := by
  intro c hc
  simp only [lowerStr] at hc
  rcases List.mem_map.mp hc with ⟨c0, hc0, rfl⟩
  apply isDigitOrWs_toLower
  rcases mem_stripBy_or Char.isWhitespace msg.data c0 hc0 with h1 | h1
  · rw [isDigitStr, Bool.and_eq_true] at hd
    have hall := hd.2
    rw [List.all_eq_true] at hall
    have hdig : c0.isDigit = true := hall c0 h1
    rw [isDigitOrWs, hdig, Bool.true_or]
  · rw [isDigitOrWs, h1, Bool.or_true]

/-- A bare-integer message never matches a start-over keyword. -/
theorem startOverHit_of_digits (msg : String)
    (hd : isDigitStr (pyStrip msg) = true) : startOverHit msg = false := by
  rw [startOverHit, List.any_eq_false]
  intro kw hkw hcontain
  have hbad : ∃ c ∈ kw.data, isDigitOrWs c = false := by
    fin_cases hkw <;> first
      | exact ⟨'o', by decide, by decide⟩
      | exact ⟨'n', by decide, by decide⟩
  rw [containsStr, listContainsSub_false (digit_msg_chars msg hd) hbad] at hcontain
  exact Bool.noConfusion hcontain

/-- The freshly appended user turn is skipped by the backward search (it is
no reset marker and carries no references). -/
theorem findSelection_user_skip (n : Nat) (m : String) (rest : List Turn) :
    findSelection n (userTurnOf m :: rest) = findSelection n rest := by
  rw [findSelection]
  rfl

/-- Storing the uploaded image touches only `product_image_path`. -/
@[simp] theorem storeImage_history (st : AgentState) (ip : Option String) :
    (storeImage st ip).history = st.history := by
  unfold storeImage
  split
  · split <;> rfl
  · rfl

/-- Storing the uploaded image keeps the selection. -/
@[simp] theorem storeImage_selected (st : AgentState) (ip : Option String) :
    (storeImage st ip).selected_reference = st.selected_reference := by
  unfold storeImage
  split
  · split <;> rfl
  · rfl

/-- Storing the uploaded image keeps the awaiting flag. -/
@[simp] theorem storeImage_awaiting (st : AgentState) (ip : Option String) :
    (storeImage st ip).awaiting_text_input = st.awaiting_text_input := by
  unfold storeImage
  split
  · split <;> rfl
  · rfl

/-- The search handler never rebinds the selected reference. -/
theorem search_keeps_selected (st : AgentState) (rt : String) (o : Oracle) :
    (handle_search_references st rt o).1.selected_reference =
      st.selected_reference := by
  simp only [handle_search_references]
  repeat first | rfl | split

/-- The pipeline handler never rebinds the selected reference. -/
theorem pipeline_keeps_selected (st : AgentState) (rt : String) (o : Oracle) :
    (handle_generate_pipeline st rt o).1.selected_reference =
      st.selected_reference := by
  simp only [handle_generate_pipeline]
  repeat first | rfl | split

/-- The reel handler returns the session state untouched. -/
theorem reel_keeps_state (st : AgentState) (rt : String) (o : Oracle) :
    (handle_generate_reel st rt o).1 = st := by
  simp only [handle_generate_reel]
  repeat first | rfl | split

/-- The legacy handler never rebinds the selected reference. -/
theorem legacy_keeps_selected (st : AgentState) (um rtRaw rts : String) (o : Oracle) :
    (handle_legacy_image st um rtRaw rts o).1.selected_reference =
      st.selected_reference := by
  simp only [handle_legacy_image]
  repeat first | rfl | split

/-- The five dispatch markers scanned in the model output. -/
def triggerMarkers : List String :=
  ["[TRIGGER_SEARCH_REFERENCES]", "[TRIGGER_GENERATE_PIPELINE]",
   "[TRIGGER_GENERATE_REEL]", "[TRIGGER_GENERATE_NANOBANANA]",
   "CALL_TOOL: GENERATE_IMAGE"]

/-- C4 (amended): a bare-integer message `n` with `1 ≤ n ≤ 3` binds the
reference found by the backward history walk — which stops at the first
reset marker but *continues past* reference-bearing turns whose lists are
shorter than `n` — copying its design guidelines and setting
`awaiting_text_input`; when instead `n` lies outside `1..3` *or* no turn
in the current segment lists at least `n` references (the walk returns
nothing), nothing is bound, and if additionally the session is not
awaiting text and the model output carries no trigger marker the turn
falls through to the plain model-invocation reply. -/
theorem C4_bare_integer_selection (st : AgentState) (o : Oracle)
    (ip : Option String) (msg : String) (n : Nat)
    (hd : isDigitStr (pyStrip msg) = true)
    (hn : natOfDigits (pyStrip msg) = n) :
    (∀ r : Reference, 1 ≤ n → n ≤ 3 →
      findSelection n st.history.reverse = some r →
      ((chat st msg ip o).1.selected_reference = some r ∧
       (chat st msg ip o).1.design_guidelines = r.design_guidelines ∧
       (chat st msg ip o).1.awaiting_text_input = true)) ∧
    (¬ (1 ≤ n ∧ n ≤ 3) ∨ findSelection n st.history.reverse = none →
      ((chat st msg ip o).1.selected_reference = st.selected_reference) ∧
      (st.awaiting_text_input = false →
        (∀ m ∈ triggerMarkers,
          containsStr (pyStrip (rawModelReply (storeImage st ip) msg o)) m = false) →
        (chat st msg ip o).2 =
          { type := "text",
            text := pyStrip (rawModelReply (storeImage st ip) msg o) })) := by
  have hr : msg ≠ "RESET_CONVERSATION" := by
    intro e; rw [e] at hd; exact absurd hd (by decide)
  have hstart : msg ≠ "START_CONVERSATION" := by
    intro e; rw [e] at hd; exact absurd hd (by decide)
  have hso : startOverHit msg = false := startOverHit_of_digits msg hd
  constructor
  · intro r h1 h3 hfind
    have hb : 1 ≤ n ∧ n ≤ 3 := ⟨h1, h3⟩
    simp only [chat, if_neg hr, if_neg hstart, hso, Bool.false_eq_true,
      if_false, selectionOf, hd, if_true, hn, if_pos hb, List.reverse_append,
      List.reverse_cons, List.reverse_nil, List.nil_append,
      List.singleton_append, findSelection_user_skip, storeImage_history,
      hfind]
    refine ⟨?_, ?_, ?_⟩ <;> first | trivial | (split <;> rfl)
  · intro hcase
    have hselnone :
        selectionOf ((storeImage st ip).history ++ [userTurnOf msg]) msg = none := by
      rcases hcase with hnb | hfind
      · simp [selectionOf, hd, hn, hnb]
      · simp [selectionOf, hd, hn, List.reverse_append, List.reverse_cons,
          List.reverse_nil, List.nil_append, List.singleton_append,
          findSelection_user_skip, storeImage_history, hfind]
    constructor
    · simp only [chat, if_neg hr, if_neg hstart, hso, Bool.false_eq_true,
        if_false, hselnone]
      split
      · split <;> simp
      · split
        · rw [search_keeps_selected]; simp
        · split
          · rw [pipeline_keeps_selected]; simp
          · split
            · rw [reel_keeps_state]; simp
            · split
              · rw [legacy_keeps_selected]; simp
              · simp
    · intro hA hmk
      have hm1 := hmk "[TRIGGER_SEARCH_REFERENCES]" (by decide)
      have hm2 := hmk "[TRIGGER_GENERATE_PIPELINE]" (by decide)
      have hm3 := hmk "[TRIGGER_GENERATE_REEL]" (by decide)
      have hm4 := hmk "[TRIGGER_GENERATE_NANOBANANA]" (by decide)
      have hm5 := hmk "CALL_TOOL: GENERATE_IMAGE" (by decide)
      simp only [chat, if_neg hr, if_neg hstart, hso, Bool.false_eq_true,
        if_false, hselnone, storeImage_awaiting, hA,
        hm1, hm2, hm3, hm4, hm5]
      simp

/-- References for the C4 scenario. -/
def c4r1 : Reference := { filename := some "r1.png" }

/-- Second reference of the older list, with design guidelines to copy. -/
def c4r2 : Reference :=
  { filename := some "r2.png",
    design_guidelines := some { cta_button := some { present := true } } }

/-- Third reference of the older list. -/
def c4r3 : Reference := { filename := some "r3.png" }

/-- A session whose most recent reference-bearing turn lists exactly one
reference while an older turn (same segment, no reset between) lists
three. -/
def c4State : AgentState :=
  { history :=
      [ { role := "assistant", content := "opciones",
          references := [c4r1, c4r2, c4r3] },
        { role := "assistant", content := "mas opciones",
          references := [c4r1] } ] }

/-- Oracle for the C4 scenario (the model reply is trigger-free). -/
def c4Oracle : Oracle := { genText := fun _ => "ok" }

/-- Counterexample for C4: with `"2"` and a most recent reference list of
length 1, the claim says nothing is bound and the turn falls through; the
code instead continues the backward walk and binds the second reference of
the older three-element list. -/
theorem C4_counterexample :
    (c4State.history.getLast?).map (fun t => t.references.length) = some 1 ∧
    c4State.selected_reference = none ∧
    (chat c4State "2" none c4Oracle).1.selected_reference = some c4r2 ∧
    (chat c4State "2" none c4Oracle).1.awaiting_text_input = true := by
  refine ⟨by decide, by decide, by decide, by decide⟩

/-- A session whose only reference-bearing turn lists a single reference:
an in-range integer above 1 exceeds every listed count in the segment. -/
def c4StateShort : AgentState :=
  { history :=
      [ { role := "assistant", content := "opciones", references := [c4r1] } ] }

/-- Witness for C4: `"1"` binds the sole reference of the most recent
list; `"4"` (out of range) binds nothing and yields the plain model reply;
and `"3"` on a segment whose only list has one entry — in range, but
exceeding every listed count — also binds nothing and falls through. -/
theorem C4_bare_integer_selection_witness :
    ((chat c4State "1" none c4Oracle).1.selected_reference = some c4r1 ∧
     (chat c4State "1" none c4Oracle).1.awaiting_text_input = true) ∧
    ((chat c4State "4" none c4Oracle).1.selected_reference =
      c4State.selected_reference ∧
     (chat c4State "4" none c4Oracle).2 =
      { type := "text",
        text := pyStrip (rawModelReply (storeImage c4State none) "4" c4Oracle) }) ∧
    (findSelection 3 c4StateShort.history.reverse = none ∧
     (chat c4StateShort "3" none c4Oracle).1.selected_reference =
      c4StateShort.selected_reference ∧
     (chat c4StateShort "3" none c4Oracle).2 =
      { type := "text",
        text := pyStrip (rawModelReply (storeImage c4StateShort none) "3" c4Oracle) }) := by
  refine ⟨?_, ?_, ?_⟩
  · have h := (C4_bare_integer_selection c4State c4Oracle none "1" 1
      (by decide) (by decide)).1 c4r1 (by decide) (by decide) (by decide)
    exact ⟨h.1, h.2.2⟩
  · have h := (C4_bare_integer_selection c4State c4Oracle none "4" 4
      (by decide) (by decide)).2 (Or.inl (by omega))
    exact ⟨h.1, h.2 (by decide) (by decide)⟩
  · have h := (C4_bare_integer_selection c4StateShort c4Oracle none "3" 3
      (by decide) (by decide)).2 (Or.inr (by decide))
    exact ⟨by decide, h.1, h.2 (by decide) (by decide)⟩

end Postty
